import Mathlib

/-
Shallow embedding of the "py-drivesdk" Vehicle Protocol & Session Core
(`src/anki/control/vehicle.py`, `src/anki/control/lights.py`,
`src/anki/misc/msgs.py`) together with theorems settling the frozen
claims about it.

Conventions of the embedding:
  * Python `bytes`/`bytearray` values are `List Nat`, one entry per byte.
  * Python exceptions are the `PyError` inductive; fallible code returns
    `Except PyError _` (or threads the partially-mutated state next to an
    `Except` where Python side effects survive a raised exception).
  * IEEE-754 `float32` fields are represented by their little-endian
    32-bit pattern as a `Nat` (bit-pattern decoding is a bijection, and no
    claim depends on the numeric value of a float field).
  * Callbacks registered on a session are identified by `Nat` ids; the
    event loop's `call_soon` queue is an explicit list on the state.
-/

/-- Python exception taxonomy used by the embedded code. -/
inductive PyError where
  | structError
  | typeError
  | rangeValueError (fieldName : String) (limit : Nat) (value : Int)
  | decodeValueError (value : Int)
  | notInListError
  | attributeError (attrName : String)
  | invalidStateError
  | zeroDivisionError
  | malformedPacket
deriving DecidableEq, Repr

/-- Python values that appear as future results or callback returns here. -/
inductive PyVal where
  | noneV
  | boolV (b : Bool)
  | intV (n : Int)
deriving DecidableEq, Repr

/-- Python truthiness for the `PyVal` fragment (`bool(None)` is `False`). -/
def pyTruthy : PyVal → Bool
  | .noneV => false
  | .boolV b => b
  | .intV n => n != 0

/-- Byte access into a buffer; out-of-range reads are guarded by the
length checks of `struct_unpack_from` before they can matter. -/
def byteAt (p : List Nat) (i : Nat) : Nat := p.getD i 0

/-- Two's-complement reading of one byte, as `struct` code `b`. -/
def toI8 (b : Nat) : Int := if b < 128 then (b : Int) else (b : Int) - 256

/-- Format codes of the `struct` format strings appearing in `msgs.py`
(all little-endian: the strings start with `<`). -/
inductive FmtCode where
  | b
  | B
  | H
  | f
deriving DecidableEq, Repr

/-- Size in bytes of one format code. -/
def fmtSize : FmtCode → Nat
  | .b => 1
  | .B => 1
  | .H => 2
  | .f => 4

/-- Decode a single field at offset `i` (little-endian). An `f` field is
returned as its 32-bit pattern. -/
def readFmt : FmtCode → List Nat → Nat → Int
  | .b, p, i => toI8 (byteAt p i)
  | .B, p, i => (byteAt p i : Int)
  | .H, p, i => (byteAt p i : Int) + 256 * (byteAt p (i + 1) : Int)
  | .f, p, i =>
      (byteAt p i : Int) + 256 * (byteAt p (i + 1) : Int)
        + 65536 * (byteAt p (i + 2) : Int) + 16777216 * (byteAt p (i + 3) : Int)

/-- Sequentially decode the fields of a format string from offset `off`. -/
def unpackFrom : List FmtCode → List Nat → Nat → List Int
  | [], _, _ => []
  | c :: rest, p, off => readFmt c p off :: unpackFrom rest p (off + fmtSize c)

/-- Total size of a format string, as `struct.calcsize`. -/
def structCalcsize (fmt : List FmtCode) : Nat := (fmt.map fmtSize).sum

/-- `struct.unpack_from(fmt, p)`: raises `struct.error` when the buffer is
shorter than the format size, else decodes from offset 0 (longer buffers
are allowed; trailing bytes are ignored). -/
def struct_unpack_from (fmt : List FmtCode) (p : List Nat) : Except PyError (List Int) :=
  if p.length < structCalcsize fmt then .error .structError
  else .ok (unpackFrom fmt p 0)

/-- Format string of `disassemble_track_update` in `msgs.py`: `<BBfHB`. -/
def track_update_fmt : List FmtCode := [.B, .B, .f, .H, .B]

/-- `disassemble_track_update` from `msgs.py`. -/
def disassemble_track_update (payload : List Nat) : Except PyError (List Int) :=
  struct_unpack_from track_update_fmt payload

/-- Format string of `disassemble_track_change` in `msgs.py`:
`<bbfBBHbBBBBB`. -/
def track_change_fmt : List FmtCode :=
  [.b, .b, .f, .B, .B, .H, .b, .B, .B, .B, .B, .B]

/-- `disassemble_track_change` from `msgs.py`: the 12-field
TRACK_PIECE_CHANGE tuple. -/
def disassemble_track_change (payload : List Nat) : Except PyError (List Int) :=
  struct_unpack_from track_change_fmt payload

/-- The TRACK_PIECE_CHANGE layout as §4.3 of the spec declares it, for
refinement comparison against `disassemble_track_change`: one byte each
for roadPiece and prevRoadPiece, float32 roadOffset, uint16
lastReceivedLaneChangeId, then eight uint8 fields. -/
def track_change_fmt_spec : List FmtCode :=
  [.B, .B, .f, .H, .B, .B, .B, .B, .B, .B, .B, .B]

/-- Decoder following the spec's declared TRACK_PIECE_CHANGE layout
(`track_change_fmt_spec`); compared with `disassemble_track_change`. -/
def disassemble_track_change_spec (payload : List Nat) : Except PyError (List Int) :=
  struct_unpack_from track_change_fmt_spec payload

/-- `disassemble_charger_info` from `msgs.py`: `struct.unpack_from('<????')`,
each flag one byte, any nonzero byte decoding to `True`. -/
def disassemble_charger_info (payload : List Nat) : Except PyError (Bool × Bool × Bool × Bool) :=
  if payload.length < 4 then .error .structError
  else .ok (byteAt payload 0 ≠ 0, byteAt payload 1 ≠ 0,
            byteAt payload 2 ≠ 0, byteAt payload 3 ≠ 0)

/-- `disassemble_version_resp` from `msgs.py`: `struct.unpack_from("<H")[0]`. -/
def disassemble_version_resp (payload : List Nat) : Except PyError Nat :=
  if payload.length < 2 then .error .structError
  else .ok (byteAt payload 0 + 256 * byteAt payload 1)

/-- Modelled from the spec: the packet framer (`msg_protocol`, which is not
under src/). §4.1: `frame` prepends message metadata (a size byte and the
message-type byte); `unframe` is its exact inverse and fails with
`MalformedPacket` on buffers shorter than the minimum header. -/
def assemble_packet (msgType : Nat) (payload : List Nat) : List Nat :=
  (payload.length + 1) :: msgType :: payload

/-- Modelled from the spec: inverse of `assemble_packet` (§4.1); fails with
`MalformedPacket` when the buffer is shorter than the 2-byte header. -/
def disassemble_packet (buffer : List Nat) : Except PyError (Nat × List Nat) :=
  if buffer.length < 2 then .error .malformedPacket
  else .ok (byteAt buffer 1, buffer.drop 2)

/-- Modelled from the spec: the inbound message-type constants
(`const.VehicleMsg`, not under src/). Their exact byte values are opaque to
the session logic in src/ (§6: wire-format constants); representative
distinct values are used. -/
def VehicleMsg.TRACK_PIECE_UPDATE : Nat := 39

/-- Modelled from the spec: see `VehicleMsg.TRACK_PIECE_UPDATE`. -/
def VehicleMsg.TRACK_PIECE_CHANGE : Nat := 41

/-- Modelled from the spec: see `VehicleMsg.TRACK_PIECE_UPDATE`. -/
def VehicleMsg.DELOCALIZED : Nat := 43

/-- Modelled from the spec: see `VehicleMsg.TRACK_PIECE_UPDATE`. -/
def VehicleMsg.PONG : Nat := 23

/-- Modelled from the spec: see `VehicleMsg.TRACK_PIECE_UPDATE`. -/
def VehicleMsg.VERSION_RESP : Nat := 25

/-- Modelled from the spec: see `VehicleMsg.TRACK_PIECE_UPDATE`. -/
def VehicleMsg.CHARGER_INFO : Nat := 63

/-- Light channels, `LightChannel` in `lights.py` (IntEnum). -/
inductive LightChannel where
  | ENGINE_RED
  | TAIL
  | ENGINE_BLUE
  | ENGINE_GREEN
  | FRONT_1
  | FRONT_2
deriving DecidableEq, Repr

/-- Integer value of a `LightChannel` (the IntEnum values 0..5). -/
def LightChannel.toNat : LightChannel → Nat
  | .ENGINE_RED => 0
  | .TAIL => 1
  | .ENGINE_BLUE => 2
  | .ENGINE_GREEN => 3
  | .FRONT_1 => 4
  | .FRONT_2 => 5

/-- Light effects, `_Effect` in `lights.py` (IntEnum). -/
inductive Effect where
  | STEADY
  | FADE
  | THROB
  | FLASH
  | RANDOM
deriving DecidableEq, Repr

/-- Integer value of an `Effect` (the IntEnum values 0..4). -/
def Effect.toNat : Effect → Nat
  | .STEADY => 0
  | .FADE => 1
  | .THROB => 2
  | .FLASH => 3
  | .RANDOM => 4

/-- One byte of `struct.pack("BBBBB", ...)`: raises `struct.error` unless
the value fits an unsigned byte. -/
def packB (v : Int) : Except PyError Nat :=
  if 0 ≤ v ∧ v ≤ 255 then .ok v.toNat else .error .structError

/-- `_to_bytes` from `lights.py`: the 5-byte pattern record
`struct.pack("BBBBB", channel, effect, start, end, cycles_per_10s)`. -/
def light_to_bytes (channel : LightChannel) (effect : Effect)
    (start end_ cycles_per_10s : Int) : Except PyError (List Nat) := do
  let b0 ← packB channel.toNat
  let b1 ← packB effect.toNat
  let b2 ← packB start
  let b3 ← packB end_
  let b4 ← packB cycles_per_10s
  .ok [b0, b1, b2, b3, b4]

/-- `BasePattern.MAX_INTENSITY` from `lights.py`. -/
def MAX_INTENSITY : Nat := 14

/-- `BasePattern.MAX_CYCLES_PER_10s` from `lights.py`. -/
def MAX_CYCLES_PER_10s : Nat := 255

/-- `_RangedValue.__set__` composed with `_RANGE_FACTORY attr limit` from
`lights.py`: accept exactly the members of `range(limit+1)`, otherwise
raise the factory's `ValueError` naming the attr, the limit and the
offending value. -/
def rangedSet (attr : String) (limit : Nat) (value : Int) : Except PyError Int :=
  if 0 ≤ value ∧ value < (limit : Int) + 1 then .ok value
  else .error (.rangeValueError attr limit value)

/-- `SteadyPattern` from `lights.py` (validated instance). -/
structure SteadyPattern where
  channel : LightChannel
  brightness : Int
deriving DecidableEq, Repr

/-- The dataclass-generated `SteadyPattern.__init__`: assigning the
`brightness` field goes through the `_RangedValue` descriptor
(`_RANGE_FACTORY("brightness", BasePattern.MAX_INTENSITY)`). -/
def SteadyPattern.init (channel : LightChannel) (brightness : Int) :
    Except PyError SteadyPattern := do
  let b ← rangedSet "brightness" MAX_INTENSITY brightness
  .ok ⟨channel, b⟩

/-- `SteadyPattern.to_bytes` from `lights.py`. -/
def SteadyPattern.to_bytes (p : SteadyPattern) : Except PyError (List Nat) :=
  light_to_bytes p.channel .STEADY p.brightness 0 0

/-- `RandomPattern` from `lights.py`: only a channel (inherits
`BasePattern.__init__`). -/
structure RandomPattern where
  channel : LightChannel
deriving DecidableEq, Repr

/-- `RandomPattern.to_bytes` from `lights.py`: encodes zeros for the
start/end/cycles bytes. -/
def RandomPattern.to_bytes (p : RandomPattern) : Except PyError (List Nat) :=
  light_to_bytes p.channel .RANDOM 0 0 0

/-- `AnimatedPattern` from `lights.py` (validated instance); `FadePattern`,
`ThrobPattern` and `FlashPattern` only fix the `_effect` class variable. -/
structure AnimatedPattern where
  channel : LightChannel
  starting_brightness : Int
  ending_brightness : Int
  cycles_per_10s : Int
deriving DecidableEq, Repr

/-- The dataclass-generated `AnimatedPattern.__init__`: the three ranged
fields are assigned in declaration order, each through its `_RangedValue`
descriptor (`_RANGE_FACTORY` attrs "start", "end", "cycles_per_10s"). -/
def AnimatedPattern.init (channel : LightChannel)
    (starting_brightness ending_brightness cycles_per_10s : Int) :
    Except PyError AnimatedPattern := do
  let s ← rangedSet "start" MAX_INTENSITY starting_brightness
  let e ← rangedSet "end" MAX_INTENSITY ending_brightness
  let c ← rangedSet "cycles_per_10s" MAX_CYCLES_PER_10s cycles_per_10s
  .ok ⟨channel, s, e, c⟩

/-- `AnimatedPattern.to_bytes` from `lights.py`, with the subclass's
`_effect` passed explicitly (`FadePattern` uses `.FADE`, and so on). -/
def AnimatedPattern.to_bytes (effect : Effect) (p : AnimatedPattern) :
    Except PyError (List Nat) :=
  light_to_bytes p.channel effect p.starting_brightness p.ending_brightness p.cycles_per_10s

/-- Modelled from the spec: track-piece types (the `track_pieces` module is
not under src/; §6 and the glossary list straight, curve, intersection,
start and finish pieces). Only `FINISH` is inspected by the session logic. -/
inductive TrackPieceType where
  | STRAIGHT
  | CURVE
  | INTERSECTION
  | START
  | FINISH
deriving DecidableEq, Repr

/-- Modelled from the spec: a track piece, identified by a location/id pair
plus a clockwise flag and carrying a type (`track_pieces.TrackPiece`, not
under src/). -/
structure TrackPiece where
  loc : Int
  piece : Int
  clockwise : Int
  typ : TrackPieceType
deriving DecidableEq, Repr

/-- Modelled from the spec: the piece-id table behind
`TrackPiece.from_raw` (§6: fails on unknown piece ids). The concrete ids
are not fixed by src/ or the spec; a representative table is used and no
claim depends on it. -/
def pieceTypeOfId (piece : Int) : Option TrackPieceType :=
  if piece = 33 then some .START
  else if piece = 34 then some .FINISH
  else if piece = 36 then some .STRAIGHT
  else if piece = 17 then some .CURVE
  else if piece = 10 then some .INTERSECTION
  else none

/-- Modelled from the spec: `TrackPiece.from_raw(location, pieceId,
clockwise)` (§6), failing with a decode `ValueError` on unknown piece ids. -/
def TrackPiece.from_raw (loc piece clockwise : Int) : Except PyError TrackPiece :=
  match pieceTypeOfId piece with
  | some t => .ok ⟨loc, piece, clockwise, t⟩
  | none => .error (.decodeValueError piece)

/-- `BatteryState` from `vehicle.py` (frozen dataclass); `None` fields are
`Option.none`. -/
structure BatteryState where
  full_battery : Bool
  low_battery : Option Bool
  on_charger : Bool
  charging : Option Bool := none
deriving DecidableEq, Repr

/-- `BatteryState.from_charger_info` from `vehicle.py`: destructure the
CHARGER_INFO payload as `(_, on_charger, charging, full)` and build the
state with `low_battery = None`. -/
def BatteryState.from_charger_info (payload : List Nat) : Except PyError BatteryState := do
  let (_, on_charger, charging, full) ← disassemble_charger_info payload
  .ok ⟨full, none, on_charger, some charging⟩

/-- The store of `asyncio.Future` objects a session has created: index =
future id, `none` = pending, `some v` = resolved with `v`. -/
structure FutureStore where
  cells : List (Option PyVal)
deriving DecidableEq, Repr

/-- `asyncio.Future()`: allocate a fresh pending future, returning its id. -/
def FutureStore.alloc (st : FutureStore) : FutureStore × Nat :=
  (⟨st.cells ++ [none]⟩, st.cells.length)

/-- `Future.set_result(v)` on future `id`: errors (InvalidStateError) if the
future is already resolved or unknown. -/
def FutureStore.set_result (st : FutureStore) (id : Nat) (v : PyVal) :
    Except PyError FutureStore :=
  match st.cells[id]? with
  | some none => .ok ⟨st.cells.set id (some v)⟩
  | some (some _) => .error .invalidStateError
  | none => .error .invalidStateError

/-- What a waiter awaiting future `id` observes: `none` while pending,
`some v` once resolved. -/
def FutureStore.result (st : FutureStore) (id : Nat) : Option PyVal :=
  match st.cells[id]? with
  | some c => c
  | none => none

/-- The mutable state a `Vehicle` instance owns (the `__slots__` fields of
`vehicle.py` that the dispatch and watcher logic touches). `scheduled` is
the event loop's `call_soon` queue and `on_change_invocations` counts
invocations of the single `on_track_piece_change` hook. -/
structure VehicleState where
  id : Nat
  is_connected : Bool
  current_track_piece : Option TrackPiece
  road_offset : Option Int
  speed : Int
  map : Option (List TrackPiece)
  position : Option Nat
  battery : BatteryState
  track_piece_watchers : List Nat
  pong_watchers : List Nat
  delocal_watchers : List Nat
  battery_watchers : List Nat
  futures : FutureStore
  version_future : Nat
  track_piece_future : Nat
  scheduled : List Nat
  on_change_invocations : Nat
deriving DecidableEq, Repr

/-- The field values `Vehicle.__init__` assigns (dispatch-relevant subset):
no cached piece, not connected, no road offset, speed 0, no map, no
position, the caller-supplied battery, empty watcher lists, and two fresh
pending futures (`_version_future` created before `_track_piece_future`). -/
def mkInitialState (id : Nat) (battery : BatteryState) : VehicleState where
  id := id
  is_connected := false
  current_track_piece := none
  road_offset := none
  speed := 0
  map := none
  position := none
  battery := battery
  track_piece_watchers := []
  pong_watchers := []
  delocal_watchers := []
  battery_watchers := []
  futures := ⟨[none, none]⟩
  version_future := 0
  track_piece_future := 1
  scheduled := []
  on_change_invocations := 0

/-- `_call_all_soon` from `vehicle.py`: register every function in `funcs`
on the running loop via `call_soon`, in order. -/
def call_all_soon (s : VehicleState) (funcs : List Nat) : VehicleState :=
  { s with scheduled := s.scheduled ++ funcs }

/-- The guard opening the TRACK_PIECE_CHANGE branch of `_notify_handler`:
`self._current_track_piece is not None and
self._current_track_piece.type == TrackPieceType.FINISH`. -/
def cachedPieceIsFinish (s : VehicleState) : Bool :=
  match s.current_track_piece with
  | some tp => tp.typ = TrackPieceType.FINISH
  | none => false

/-- Tail of the TRACK_PIECE_CHANGE branch of `_notify_handler`: resolve
the track-piece future with `None`, install a fresh one, invoke the
`on_track_piece_change` hook, then fan out to the watchers. -/
def track_change_tail (s : VehicleState) : VehicleState × Except PyError Bool :=
  match s.futures.set_result s.track_piece_future .noneV with
  | .error e => (s, .error e)
  | .ok fs =>
    let (fs2, newId) := fs.alloc
    let s3 := { s with futures := fs2, track_piece_future := newId,
                       on_change_invocations := s.on_change_invocations + 1 }
    (call_all_soon s3 s3.track_piece_watchers, .ok true)

/-- `Vehicle._notify_handler` from `vehicle.py`. Returns the state after
the call next to the call's outcome (`Bool` = the processed flag; an
`error` is an exception propagating out of the handler, with mutations
made before the raise kept, as in Python). -/
def notify_handler (s : VehicleState) (data : List Nat) :
    VehicleState × Except PyError Bool :=
  match disassemble_packet data with
  | .error e => (s, .error e)
  | .ok (msg_type, payload) =>
    if msg_type = VehicleMsg.TRACK_PIECE_UPDATE then
      match disassemble_track_update payload with
      | .error e => (s, .error e)
      | .ok [loc, piece, offset, speed, clockwise] =>
        let s1 := { s with road_offset := some offset, speed := speed }
        match TrackPiece.from_raw loc piece clockwise with
        | .error _ => (s1, .ok true)
        | .ok piece_obj => ({ s1 with current_track_piece := some piece_obj }, .ok true)
      | .ok _ => (s, .error .structError)
    else if msg_type = VehicleMsg.TRACK_PIECE_CHANGE then
      let s1 := if cachedPieceIsFinish s then { s with position := some 0 } else s
      match disassemble_track_change payload with
      | .error e => (s1, .error e)
      | .ok _fields =>
        match s1.position with
        | some p =>
          match s1.map with
          | some m =>
            if m.length = 0 then (s1, .error .zeroDivisionError)
            else track_change_tail { s1 with position := some ((p + 1) % m.length) }
          | none => track_change_tail { s1 with position := some (p + 1) }
        | none => track_change_tail s1
    else if msg_type = VehicleMsg.PONG then
      (call_all_soon s s.pong_watchers, .ok true)
    else if msg_type = VehicleMsg.DELOCALIZED then
      (call_all_soon s s.delocal_watchers, .ok true)
    else if msg_type = VehicleMsg.CHARGER_INFO then
      match BatteryState.from_charger_info payload with
      | .error e => (s, .error e)
      | .ok b =>
        let s1 := { s with battery := b }
        (call_all_soon s1 s1.battery_watchers, .ok true)
    else if msg_type = VehicleMsg.VERSION_RESP then
      match disassemble_version_resp payload with
      | .error e => (s, .error e)
      | .ok v =>
        match s.futures.set_result s.version_future (.intV v) with
        | .error e => (s, .error e)
        | .ok fs =>
          let (fs2, newId) := fs.alloc
          ({ s with futures := fs2, version_future := newId }, .ok true)
    else (s, .ok false)

/-- The notification callback `Vehicle.connect` subscribes on the read
characteristic: `lambda *args: None and self._notify_handler(*args)`.
Python `and` short-circuits: a falsy left operand is returned without
evaluating the right operand. -/
def connect_notify_callback (s : VehicleState) (data : List Nat) :
    VehicleState × Except PyError PyVal :=
  if pyTruthy PyVal.noneV then
    let (s1, r) := notify_handler s data
    (s1, r.map fun b => PyVal.boolV b)
  else (s, .ok PyVal.noneV)

/-- `Vehicle.__slots__` from `vehicle.py`, entry by entry. The last entry
is one string: the source lists `"_version_future"` and
`"_track_piece_future"` with no comma between them, and adjacent Python
string literals concatenate. -/
def vehicle_slots : List String :=
  ["_client", "_current_track_piece", "_is_connected", "_road_offset",
   "_speed", "on_track_piece_change", "_position", "_map", "_read_chara",
   "_write_chara", "_id", "_track_piece_watchers", "_pong_watchers",
   "_delocal_watchers", "_battery_watchers", "_controller", "_ping_task",
   "_battery", "_version_future" ++ "_track_piece_future"]

/-- The attribute names `Vehicle.__init__` assigns, in statement order
(the branches of the `client is None` check assign `_client` either way). -/
def vehicle_init_assignments : List String :=
  ["_client", "_id", "_current_track_piece", "_is_connected",
   "_road_offset", "_speed", "_map", "_position", "on_track_piece_change",
   "_track_piece_watchers", "_pong_watchers", "_delocal_watchers",
   "_battery_watchers", "_controller", "_battery", "_version_future",
   "_track_piece_future"]

/-- Attribute assignment on a `__slots__` class with no `__dict__`:
assigning a name that is not a declared slot raises `AttributeError`. -/
def slots_setattr (slots : List String) (attrs : List String) (attrName : String) :
    Except PyError (List String) :=
  if attrName ∈ slots then .ok (attrs ++ [attrName])
  else .error (.attributeError attrName)

/-- Run a sequence of attribute assignments against a slots declaration,
as executing `Vehicle.__init__` does; the result is the set (list) of
attributes assigned, or the first `AttributeError`. -/
def run_slots_init (slots : List String) (names : List String) :
    Except PyError (List String) :=
  names.foldlM (fun attrs n => slots_setattr slots attrs n) []

/-- `Vehicle.track_piece_change` from `vehicle.py`: append the callback
and return it (`return func`). -/
def track_piece_change (s : VehicleState) (f : Nat) : VehicleState × Option Nat :=
  ({ s with track_piece_watchers := s.track_piece_watchers ++ [f] }, some f)

/-- `Vehicle.pong` from `vehicle.py`: append the callback and return it. -/
def pong_register (s : VehicleState) (f : Nat) : VehicleState × Option Nat :=
  ({ s with pong_watchers := s.pong_watchers ++ [f] }, some f)

/-- `Vehicle.delocalized` from `vehicle.py`: append the callback; the body
has no return statement, so the call returns `None`. -/
def delocalized (s : VehicleState) (f : Nat) : VehicleState × Option Nat :=
  ({ s with delocal_watchers := s.delocal_watchers ++ [f] }, none)

/-- `Vehicle.battery_change` from `vehicle.py`: append the callback; the
body has no return statement (the source carries a FIXME saying it should
return `func`), so the call returns `None`. -/
def battery_change (s : VehicleState) (f : Nat) : VehicleState × Option Nat :=
  ({ s with battery_watchers := s.battery_watchers ++ [f] }, none)

/-- Python `list.remove(x)`: delete the first occurrence of `x`, raising
`ValueError` when `x` is not present. -/
def pyRemove : List Nat → Nat → Except PyError (List Nat)
  | [], _ => .error .notInListError
  | a :: rest, x =>
    if a = x then .ok rest
    else (pyRemove rest x).map fun l => a :: l

/-- `Vehicle.remove_track_piece_watcher` from `vehicle.py`. -/
def remove_track_piece_watcher (s : VehicleState) (f : Nat) :
    Except PyError VehicleState :=
  (pyRemove s.track_piece_watchers f).map fun l =>
    { s with track_piece_watchers := l }

/-- `Vehicle.remove_delocalized_watcher` from `vehicle.py`. -/
def remove_delocalized_watcher (s : VehicleState) (f : Nat) :
    Except PyError VehicleState :=
  (pyRemove s.delocal_watchers f).map fun l =>
    { s with delocal_watchers := l }

/-- `Vehicle.remove_battery_watcher` from `vehicle.py`. -/
def remove_battery_watcher (s : VehicleState) (f : Nat) :
    Except PyError VehicleState :=
  (pyRemove s.battery_watchers f).map fun l =>
    { s with battery_watchers := l }

/-- `n` successive `track_piece_change` registrations of the callback `f`. -/
def registerN (s : VehicleState) (f : Nat) : Nat → VehicleState
  | 0 => s
  | n + 1 => (track_piece_change (registerN s f n) f).1

/-- The object `get_version` awaits: `return await self._version_future`
evaluates the attribute once, capturing the future that is current when
the call reaches the await. -/
def get_version_awaits (s : VehicleState) : Nat := s.version_future

/-- A framed VERSION_RESP notification carrying the 16-bit value `v`. -/
def versionBuf (v : Nat) : List Nat :=
  assemble_packet VehicleMsg.VERSION_RESP [v % 256, v / 256]

/-- State of the single `pong_reply_future` that `_auto_ping` creates once
before its loop: pending, resolved with a value, or cancelled (which is
what `asyncio.wait_for` does to the awaited future when it times out). -/
inductive FutState where
  | pending
  | resolved (v : PyVal)
  | cancelled
deriving DecidableEq, Repr

/-- `Future.set_result` as called with an explicit Python argument list:
the method has exactly one required parameter, so any other arity raises
`TypeError` before the future is touched; resolving a future that is not
pending (already resolved, or cancelled) raises `InvalidStateError`. The
future here is the single `pong_reply_future` cell of `_auto_ping`. -/
def future_set_result_call (fut : FutState) (args : List PyVal) :
    Except PyError FutState :=
  match args with
  | [v] =>
    match fut with
    | .pending => .ok (.resolved v)
    | _ => .error .invalidStateError
  | _ => .error .typeError

/-- The `pong_watch` callback `_auto_ping` registers: its body calls
`pong_reply_future.set_result()` with zero arguments and would then
replace the nonlocal future with a fresh one. The zero-argument call
raises `TypeError` (the event loop swallows it), aborting the body before
the replacement, so the future is left unchanged; in the unreachable
success case the waiter would observe the resolved old object. -/
def pong_watch (fut : FutState) : FutState :=
  match future_set_result_call fut [] with
  | .error _ => fut
  | .ok f2 => f2

/-- `AUTOMATIC_PING_CONTROL["max_timeouts"]` from `vehicle.py`. -/
def AUTO_PING_MAX_TIMEOUTS : Nat := 2

/-- Outcome of `asyncio.wait_for(pong_reply_future, timeout)` in one
window, with the future state it leaves behind: a resolved future returns
its value (the `else: timeouts = 0` branch); a pending future is
cancelled by `wait_for` at expiry, which raises the `TimeoutError` the
loop catches; an already-cancelled future raises `CancelledError`, which
`except asyncio.TimeoutError` does not catch. -/
inductive WaitResult where
  | pongOk
  | timedOut
  | cancelledError
deriving DecidableEq, Repr

/-- See `WaitResult`. -/
def wait_for_pong (fut : FutState) : WaitResult × FutState :=
  match fut with
  | .resolved _ => (.pongOk, fut)
  | .pending => (.timedOut, .cancelled)
  | .cancelled => (.cancelledError, fut)

/-- How a run of the `_auto_ping` supervisor ends: still looping when the
observed trace is exhausted, force-disconnected via the threshold branch,
or dead from an exception (the uncaught `CancelledError`) propagating out
of the task. -/
inductive PingOutcome where
  | running
  | disconnected
  | crashed
deriving DecidableEq, Repr

/-- The `_auto_ping` loop over a trace of ping windows (one entry per
iteration, `true` = a PONG fan-out runs `pong_watch` within that window),
carrying the consecutive-timeout counter and the state of the single
`pong_reply_future`. Per window: wait up to the timeout for the future;
on success reset the counter, on `TimeoutError` increment it, on any
other exception the supervisor dies; then the threshold check
`timeouts > max_timeouts` warns and force-disconnects, ending the loop.
Returns the final counter and how the run ended. -/
def auto_ping_run : List Bool → Nat → FutState → Nat × PingOutcome
  | [], timeouts, _ => (timeouts, .running)
  | p :: rest, timeouts, fut =>
    let fut1 := if p then pong_watch fut else fut
    match wait_for_pong fut1 with
    | (.cancelledError, _) => (timeouts, .crashed)
    | (.pongOk, fut2) =>
      if 0 > AUTO_PING_MAX_TIMEOUTS then (0, .disconnected)
      else auto_ping_run rest 0 fut2
    | (.timedOut, fut2) =>
      if timeouts + 1 > AUTO_PING_MAX_TIMEOUTS then (timeouts + 1, .disconnected)
      else auto_ping_run rest (timeouts + 1) fut2

/-- `_auto_ping` entry: the pong watcher is registered and the single
`pong_reply_future` is created pending, once, before the loop starts with
the counter at 0. -/
def auto_ping_main (pongs : List Bool) : Nat × PingOutcome :=
  auto_ping_run pongs 0 .pending

/-- Decidable equality on `Except`, for evaluating the embedded fallible
code in witnesses and counterexamples. -/
instance {ε α : Type} [DecidableEq ε] [DecidableEq α] : DecidableEq (Except ε α) := fun x y =>
  match x, y with
  | .ok a, .ok b =>
    if h : a = b then .isTrue (by rw [h]) else .isFalse (by simp [h])
  | .error a, .error b =>
    if h : a = b then .isTrue (by rw [h]) else .isFalse (by simp [h])
  | .ok _, .error _ => .isFalse (by simp)
  | .error _, .ok _ => .isFalse (by simp)

/-- A caller-supplied initial battery state used in concrete scenarios. -/
def B0 : BatteryState := ⟨false, none, false, none⟩

/-- A framed CHARGER_INFO notification: reserved 0, on-charger 1,
charging 1, full 1. -/
def chargerBuf : List Nat := assemble_packet VehicleMsg.CHARGER_INFO [0, 1, 1, 1]

/-- A framed TRACK_PIECE_CHANGE notification with an all-zero 16-byte
payload. -/
def trackChangeBuf : List Nat :=
  assemble_packet VehicleMsg.TRACK_PIECE_CHANGE (List.replicate 16 0)

/-- A finish track piece. -/
def finishPiece : TrackPiece := ⟨0, 34, 0, .FINISH⟩

/-- A straight track piece. -/
def straightPiece : TrackPiece := ⟨1, 36, 0, .STRAIGHT⟩

/-- A connected session whose cached current piece is the finish piece of
a two-piece map, with map position 1. -/
def sAtFinish : VehicleState :=
  { mkInitialState 0 B0 with
      is_connected := true
      current_track_piece := some finishPiece
      map := some [straightPiece, finishPiece]
      position := some 1 }

/-- A connected session whose cached current piece is a straight piece of
a two-piece map, with map position 1. -/
def sAtStraight : VehicleState :=
  { mkInitialState 0 B0 with
      is_connected := true
      current_track_piece := some straightPiece
      map := some [straightPiece, finishPiece]
      position := some 1 }

/-- C1: the claim says every notification buffer delivered while Connected
is run through `_notify_handler` by the callback subscribed in
`Vehicle.connect`. The subscribed callback is
`lambda *args: None and self._notify_handler(*args)`: `None` is falsy, so
the `and` short-circuits and the callback returns `None` without ever
invoking `_notify_handler` — no state update or fan-out happens. The
second conjunct shows the lost dispatch is observable: running
`_notify_handler` itself on a CHARGER_INFO buffer changes the battery
state, while the subscribed callback leaves the state untouched. -/
theorem connect_callback_never_dispatches :
    (∀ s data, connect_notify_callback s data = (s, .ok PyVal.noneV))
    ∧ (notify_handler (mkInitialState 0 B0) chargerBuf).1.battery
        ≠ (mkInitialState 0 B0).battery := by
  constructor
  · intro s data
    rfl
  · decide

/-- C2: the claim says constructing a `Vehicle` always succeeds. It never
does: `__slots__` lists `"_version_future"` and `"_track_piece_future"`
with a missing comma, so Python string-literal concatenation turns them
into the single slot `"_version_future_track_piece_future"`, and the
assignment `self._version_future = asyncio.Future()` in `__init__` raises
`AttributeError`. -/
theorem vehicle_init_raises_attribute_error :
    run_slots_init vehicle_slots vehicle_init_assignments
      = .error (.attributeError "_version_future")
    ∧ "_version_future" ∉ vehicle_slots := by
  constructor
  · decide
  · decide

/-- C3: the claim says a TRACK_PIECE_CHANGE received while the cached
piece is a finish piece leaves `mapPosition` at 0. The code resets the
position to 0 but then falls into the unconditional increment block, so
the position ends at `1 % len(map)` (the source FIXME notes that index 0
never occurs on this path): on a two-piece map the final position is 1,
not 0. The second conjunct checks the claim's other half, which the code
does satisfy: from a non-finish cached piece, a known position 1 on a
two-piece map advances to `(1+1) % 2 = 0`. -/
theorem track_change_finish_reset_is_overrun :
    (notify_handler sAtFinish trackChangeBuf).1.position = some 1
    ∧ (notify_handler sAtStraight trackChangeBuf).1.position = some 0 := by
  constructor
  · decide
  · decide

/-- C5: the claim says the keep-alive counter is reset to 0 whenever a
pong arrives within the window, and that after 3 consecutive timeouts
(counter exceeding the threshold 2) the session is force-disconnected and
the supervisor stops. Neither happens. First and second conjuncts: the
pong watcher calls `pong_reply_future.set_result()` with no argument,
which raises `TypeError` whatever the future's state, so a pong never
changes the future and never resets the counter. Third: one window —
with or without a pong — therefore times out and leaves the counter at 1
(where the claim says a pong resets it to 0), with `wait_for` cancelling
the single future. Fourth: on every trace of two or more windows, with
any pong pattern, the second window's `wait_for` on the cancelled future
raises `CancelledError`, which `except asyncio.TimeoutError` does not
catch: the supervisor dies during window 2 with the counter at 1, so the
counter never exceeds 2 and the force-disconnect branch is never
reached. -/
theorem auto_ping_pong_never_resets :
    (∀ fut, future_set_result_call fut [] = .error PyError.typeError)
    ∧ (∀ fut, pong_watch fut = fut)
    ∧ (∀ p, auto_ping_main [p] = (1, PingOutcome.running))
    ∧ (∀ p1 p2 rest, auto_ping_main (p1 :: p2 :: rest)
          = (1, PingOutcome.crashed)) := by
  refine ⟨fun fut => rfl, fun fut => rfl, fun p => ?_, fun p1 p2 rest => ?_⟩
  · cases p <;> rfl
  · cases p1 <;> cases p2 <;> rfl

/-- A 16-byte TRACK_PIECE_CHANGE payload on which the source layout and
the spec's declared layout decode to different tuples. -/
def trackChangePayloadCx : List Nat :=
  [1, 2, 0, 0, 0, 0, 3, 4, 5, 6, 200, 7, 8, 9, 10, 11]

/-- C6 counterexample: decoding this payload under the source layout
`<bbfBBHbBBBBB` and under the spec's declared widths (uint16
lastReceivedLaneChangeId in fourth position, all later fields uint8)
gives different tuples, so the claim's layout is not the code's. -/
theorem track_change_spec_layout_differs :
    disassemble_track_change trackChangePayloadCx
      ≠ disassemble_track_change_spec trackChangePayloadCx := by
  decide

/-- C6 amended: for every payload of at least 16 bytes,
`disassemble_track_change` decodes the little-endian layout
`<bbfBBHbBBBBB` — roadPiece int8 at 0, prevRoadPiece int8 at 1,
roadOffset float32 at 2, lastReceivedLaneChangeId uint8 at 6,
lastExecutedLaneChangeId uint8 at 7, lastDesiredLaneChangeSpeed uint16 at
8, aveFollowLineDriftPixels int8 at 10, then hadLaneChange, uphillCounter,
downhillCounter, leftWheelDist, rightWheelDist as uint8 at 11..15. -/
theorem track_change_source_layout (p : List Nat) (h : 16 ≤ p.length) :
    disassemble_track_change p = .ok
      [toI8 (byteAt p 0), toI8 (byteAt p 1), readFmt .f p 2,
       (byteAt p 6 : Int), (byteAt p 7 : Int),
       (byteAt p 8 : Int) + 256 * (byteAt p 9 : Int),
       toI8 (byteAt p 10), (byteAt p 11 : Int), (byteAt p 12 : Int),
       (byteAt p 13 : Int), (byteAt p 14 : Int), (byteAt p 15 : Int)] := by
  have hsize : structCalcsize track_change_fmt = 16 := rfl
  have hlen : ¬ p.length < structCalcsize track_change_fmt := by
    rw [hsize]
    omega
  unfold disassemble_track_change struct_unpack_from
  rw [if_neg hlen]
  rfl

/-- C6 amended, witness: the layout theorem applied to the concrete
16-byte payload `trackChangePayloadCx`. -/
theorem track_change_source_layout_witness :
    16 ≤ trackChangePayloadCx.length
    ∧ disassemble_track_change trackChangePayloadCx = .ok
        [toI8 (byteAt trackChangePayloadCx 0), toI8 (byteAt trackChangePayloadCx 1),
         readFmt .f trackChangePayloadCx 2,
         (byteAt trackChangePayloadCx 6 : Int), (byteAt trackChangePayloadCx 7 : Int),
         (byteAt trackChangePayloadCx 8 : Int) + 256 * (byteAt trackChangePayloadCx 9 : Int),
         toI8 (byteAt trackChangePayloadCx 10), (byteAt trackChangePayloadCx 11 : Int),
         (byteAt trackChangePayloadCx 12 : Int), (byteAt trackChangePayloadCx 13 : Int),
         (byteAt trackChangePayloadCx 14 : Int), (byteAt trackChangePayloadCx 15 : Int)] :=
  ⟨by decide, track_change_source_layout trackChangePayloadCx (by decide)⟩

/-- C7: the claim says every watcher-registration method returns the
callback passed in, and removal of a never-registered callback fails. The
removal half holds (`list.remove` raises ValueError), and
`track_piece_change` and `pong` do return the callback — but `delocalized`
and `battery_change` have no return statement and return `None` (the
source FIXME on `battery_change` says it should return `func`). -/
theorem watcher_registration_returns :
    (∀ s f, (track_piece_change s f).2 = some f)
    ∧ (∀ s f, (pong_register s f).2 = some f)
    ∧ (∀ s f, (delocalized s f).2 = none)
    ∧ (∀ s f, (battery_change s f).2 = none)
    ∧ (∀ f, remove_track_piece_watcher (mkInitialState 0 B0) f
          = .error .notInListError)
    ∧ (∀ f, remove_delocalized_watcher (mkInitialState 0 B0) f
          = .error .notInListError)
    ∧ (∀ f, remove_battery_watcher (mkInitialState 0 B0) f
          = .error .notInListError) := by
  refine ⟨fun _ _ => rfl, fun _ _ => rfl, fun _ _ => rfl, fun _ _ => rfl,
    fun _ => rfl, fun _ => rfl, fun _ => rfl⟩

/-- Unframing inverts framing (the framer round-trip used when dispatching
an assembled notification). -/
theorem disassemble_assemble (t : Nat) (p : List Nat) :
    disassemble_packet (assemble_packet t p) = .ok (t, p) := by
  have h2 : ¬ ((assemble_packet t p).length < 2) := by
    simp only [assemble_packet, List.length_cons]
    omega
  unfold disassemble_packet
  rw [if_neg h2]
  rfl

/-- What one `result` observation reduces to, given the cell lookup. -/
theorem FutureStore.result_eq (st : FutureStore) (id : Nat) (c : Option PyVal)
    (h : st.cells[id]? = some c) : st.result id = c := by
  unfold FutureStore.result
  rw [h]

/-- Normal form of dispatching one VERSION_RESP notification whose pending
version future is a live cell: the cell is resolved with the decoded value
and a fresh pending cell is installed, becoming the new version future. -/
theorem version_resp_dispatch_eq (s : VehicleState) (v : Nat) (hv : v < 65536)
    (hp : s.futures.cells[s.version_future]? = some none) :
    notify_handler s (versionBuf v)
      = ({ s with
            futures := ⟨(s.futures.cells.set s.version_future (some (.intV v))) ++ [none]⟩,
            version_future := s.futures.cells.length }, .ok true) := by
  have hsplit : v % 256 + 256 * (v / 256) = v := by omega
  simp [notify_handler, versionBuf, disassemble_assemble,
    VehicleMsg.VERSION_RESP, VehicleMsg.TRACK_PIECE_UPDATE,
    VehicleMsg.TRACK_PIECE_CHANGE, VehicleMsg.PONG, VehicleMsg.DELOCALIZED,
    VehicleMsg.CHARGER_INFO, disassemble_version_resp, byteAt,
    FutureStore.set_result, hp, FutureStore.alloc, List.length_set,
    List.length_cons, hsplit]

/-- C4 amended: the two concurrent `get_version` calls both evaluate
`self._version_future` before any response arrives, so both await the same
single-slot future (`get_version_awaits s` for both). The first
VERSION_RESP therefore resolves both waiters with the first response's
value; only a waiter that starts after that response awaits the freshly
installed slot, which stays pending until a second response resolves it
with the second value. -/
theorem get_version_waiters_share_resolution (s : VehicleState) (v v2 : Nat)
    (hv : v < 65536) (hv2 : v2 < 65536)
    (hp : s.futures.cells[s.version_future]? = some none) :
    FutureStore.result (notify_handler s (versionBuf v)).1.futures
        (get_version_awaits s) = some (.intV v)
    ∧ FutureStore.result (notify_handler s (versionBuf v)).1.futures
        (get_version_awaits (notify_handler s (versionBuf v)).1) = none
    ∧ FutureStore.result
        (notify_handler (notify_handler s (versionBuf v)).1 (versionBuf v2)).1.futures
        (get_version_awaits (notify_handler s (versionBuf v)).1) = some (.intV v2) := by
  have hlt : s.version_future < s.futures.cells.length :=
    (List.getElem?_eq_some.1 hp).1
  rw [version_resp_dispatch_eq s v hv hp]
  have hfresh :
      ((s.futures.cells.set s.version_future (some (.intV v))) ++ [none] :
        List (Option PyVal))[s.futures.cells.length]? = some none := by
    have h := List.getElem?_concat_length
      (s.futures.cells.set s.version_future (some (.intV v))) (none : Option PyVal)
    rwa [List.length_set] at h
  refine ⟨?_, ?_, ?_⟩
  · apply FutureStore.result_eq
    rw [List.getElem?_append_left (by rw [List.length_set]; exact hlt)]
    exact List.getElem?_set_self hlt
  · exact FutureStore.result_eq _ _ _ hfresh
  · rw [version_resp_dispatch_eq _ v2 hv2 hfresh]
    apply FutureStore.result_eq
    have hlt2 : s.futures.cells.length
        < ((s.futures.cells.set s.version_future (some (.intV v))) ++ [none]).length := by
      rw [List.length_append, List.length_set]
      simp
    rw [List.getElem?_append_left (by rw [List.length_set]; exact hlt2)]
    exact List.getElem?_set_self hlt2

/-- C4 amended, witness: on a fresh session both concurrent waiters
capture future id 0; after one VERSION_RESP carrying 42 the shared slot
holds 42, the fresh slot is pending, and a second response carrying 7
resolves the fresh slot. -/
theorem get_version_waiters_share_resolution_witness :
    42 < 65536 ∧ 7 < 65536
    ∧ ((mkInitialState 0 B0).futures.cells[(mkInitialState 0 B0).version_future]?
        = some none)
    ∧ (FutureStore.result (notify_handler (mkInitialState 0 B0) (versionBuf 42)).1.futures
          (get_version_awaits (mkInitialState 0 B0)) = some (.intV 42)
      ∧ FutureStore.result (notify_handler (mkInitialState 0 B0) (versionBuf 42)).1.futures
          (get_version_awaits (notify_handler (mkInitialState 0 B0) (versionBuf 42)).1) = none
      ∧ FutureStore.result
          (notify_handler (notify_handler (mkInitialState 0 B0) (versionBuf 42)).1
            (versionBuf 7)).1.futures
          (get_version_awaits (notify_handler (mkInitialState 0 B0) (versionBuf 42)).1)
          = some (.intV 7)) :=
  ⟨by decide, by decide, by decide,
    get_version_waiters_share_resolution (mkInitialState 0 B0) 42 7
      (by decide) (by decide) (by decide)⟩

/-- C4 counterexample: the claim says the second concurrent waiter remains
pending until a second response arrives. On a fresh session, after a
single VERSION_RESP carrying 42, the future the second waiter captured
(the same slot the first captured) is already resolved, not pending. -/
theorem get_version_second_waiter_not_pending :
    ¬ (FutureStore.result (notify_handler (mkInitialState 0 B0) (versionBuf 42)).1.futures
        (get_version_awaits (mkInitialState 0 B0)) = none) := by
  decide

/-- A ranged-descriptor assignment accepts an in-range value. -/
theorem rangedSet_ok (attr : String) (limit : Nat) (v : Int)
    (h0 : 0 ≤ v) (h : v ≤ limit) : rangedSet attr limit v = .ok v := by
  unfold rangedSet
  rw [if_pos ⟨h0, by omega⟩]

/-- A ranged-descriptor assignment rejects a value above the limit,
raising the factory's `ValueError` naming the attr. -/
theorem rangedSet_reject (attr : String) (limit : Nat) (v : Int)
    (h : (limit : Int) < v) :
    rangedSet attr limit v = .error (.rangeValueError attr limit v) := by
  unfold rangedSet
  rw [if_neg]
  rintro ⟨_, h2⟩
  omega

/-- Packing an in-range value as an unsigned byte succeeds. -/
theorem packB_ok (v : Int) (h0 : 0 ≤ v) (h : v ≤ 255) : packB v = .ok v.toNat := by
  unfold packB
  rw [if_pos ⟨h0, h⟩]

/-- Channel IntEnum values are bytes. -/
theorem channel_toNat_le (c : LightChannel) : c.toNat ≤ 5 := by
  cases c <;> decide

/-- Effect IntEnum values are bytes. -/
theorem effect_toNat_le (e : Effect) : e.toNat ≤ 4 := by
  cases e <;> decide

/-- `_to_bytes` on a validated record is total and packs the five fields
in order. -/
theorem light_to_bytes_ok (ch : LightChannel) (eff : Effect) (s e c : Int)
    (hs0 : 0 ≤ s) (hs : s ≤ 255) (he0 : 0 ≤ e) (he : e ≤ 255)
    (hc0 : 0 ≤ c) (hc : c ≤ 255) :
    light_to_bytes ch eff s e c
      = .ok [ch.toNat, eff.toNat, s.toNat, e.toNat, c.toNat] := by
  have hch : ((ch.toNat : Int)).toNat = ch.toNat := Int.toNat_natCast _
  have heff : ((eff.toNat : Int)).toNat = eff.toNat := Int.toNat_natCast _
  unfold light_to_bytes
  rw [packB_ok _ (Int.natCast_nonneg _) (by have := channel_toNat_le ch; omega),
      packB_ok _ (Int.natCast_nonneg _) (by have := effect_toNat_le eff; omega),
      packB_ok _ hs0 hs, packB_ok _ he0 he, packB_ok _ hc0 hc]
  simp [hch, heff]
  rfl

/-- C8: for every channel and in-range field values, constructing each
light pattern succeeds and encoding it yields exactly the 5 bytes
`[channel, effectCode, start, end, cyclesPer10s]` equal to the
constructor inputs (Steady carries its brightness in the start byte with
end and cycles 0); a Random pattern encodes zeros for the start, end and
cycles bytes. -/
theorem light_pattern_encoding (ch : LightChannel) (b s e c : Int)
    (hb0 : 0 ≤ b) (hb : b ≤ 14) (hs0 : 0 ≤ s) (hs : s ≤ 14)
    (he0 : 0 ≤ e) (he : e ≤ 14) (hc0 : 0 ≤ c) (hc : c ≤ 255) :
    (SteadyPattern.init ch b).bind SteadyPattern.to_bytes
        = .ok [ch.toNat, 0, b.toNat, 0, 0]
    ∧ (AnimatedPattern.init ch s e c).bind (AnimatedPattern.to_bytes .FADE)
        = .ok [ch.toNat, 1, s.toNat, e.toNat, c.toNat]
    ∧ (AnimatedPattern.init ch s e c).bind (AnimatedPattern.to_bytes .THROB)
        = .ok [ch.toNat, 2, s.toNat, e.toNat, c.toNat]
    ∧ (AnimatedPattern.init ch s e c).bind (AnimatedPattern.to_bytes .FLASH)
        = .ok [ch.toNat, 3, s.toNat, e.toNat, c.toNat]
    ∧ RandomPattern.to_bytes ⟨ch⟩ = .ok [ch.toNat, 4, 0, 0, 0] := by
  have hsteady : SteadyPattern.init ch b = .ok ⟨ch, b⟩ := by
    unfold SteadyPattern.init
    rw [rangedSet_ok _ _ _ hb0 (by unfold MAX_INTENSITY; omega)]
    rfl
  have hanim : AnimatedPattern.init ch s e c = .ok ⟨ch, s, e, c⟩ := by
    unfold AnimatedPattern.init
    rw [rangedSet_ok _ _ _ hs0 (by unfold MAX_INTENSITY; omega),
        rangedSet_ok _ _ _ he0 (by unfold MAX_INTENSITY; omega),
        rangedSet_ok _ _ _ hc0 (by unfold MAX_CYCLES_PER_10s; omega)]
    rfl
  refine ⟨?_, ?_, ?_, ?_, ?_⟩
  · rw [hsteady]
    show SteadyPattern.to_bytes ⟨ch, b⟩ = _
    unfold SteadyPattern.to_bytes
    rw [light_to_bytes_ok ch .STEADY b 0 0 hb0 (by omega) le_rfl (by omega)
        le_rfl (by omega)]
    rfl
  · rw [hanim]
    show AnimatedPattern.to_bytes .FADE ⟨ch, s, e, c⟩ = _
    unfold AnimatedPattern.to_bytes
    rw [light_to_bytes_ok ch .FADE s e c hs0 (by omega) he0 (by omega) hc0 hc]
    rfl
  · rw [hanim]
    show AnimatedPattern.to_bytes .THROB ⟨ch, s, e, c⟩ = _
    unfold AnimatedPattern.to_bytes
    rw [light_to_bytes_ok ch .THROB s e c hs0 (by omega) he0 (by omega) hc0 hc]
    rfl
  · rw [hanim]
    show AnimatedPattern.to_bytes .FLASH ⟨ch, s, e, c⟩ = _
    unfold AnimatedPattern.to_bytes
    rw [light_to_bytes_ok ch .FLASH s e c hs0 (by omega) he0 (by omega) hc0 hc]
    rfl
  · unfold RandomPattern.to_bytes
    rw [light_to_bytes_ok ch .RANDOM 0 0 0 le_rfl (by omega) le_rfl (by omega)
        le_rfl (by omega)]
    rfl

/-- C8 witness: the encoding theorem at channel TAIL with brightness 7,
start 1, end 2, cycles 100. -/
theorem light_pattern_encoding_witness :
    (SteadyPattern.init .TAIL 7).bind SteadyPattern.to_bytes
        = .ok [LightChannel.toNat .TAIL, 0, (7 : Int).toNat, 0, 0]
    ∧ (AnimatedPattern.init .TAIL 1 2 100).bind (AnimatedPattern.to_bytes .FADE)
        = .ok [LightChannel.toNat .TAIL, 1, (1 : Int).toNat, (2 : Int).toNat, (100 : Int).toNat]
    ∧ (AnimatedPattern.init .TAIL 1 2 100).bind (AnimatedPattern.to_bytes .THROB)
        = .ok [LightChannel.toNat .TAIL, 2, (1 : Int).toNat, (2 : Int).toNat, (100 : Int).toNat]
    ∧ (AnimatedPattern.init .TAIL 1 2 100).bind (AnimatedPattern.to_bytes .FLASH)
        = .ok [LightChannel.toNat .TAIL, 3, (1 : Int).toNat, (2 : Int).toNat, (100 : Int).toNat]
    ∧ RandomPattern.to_bytes ⟨.TAIL⟩ = .ok [LightChannel.toNat .TAIL, 4, 0, 0, 0] :=
  light_pattern_encoding .TAIL 7 1 2 100 (by decide) (by decide) (by decide)
    (by decide) (by decide) (by decide) (by decide) (by decide)

/-- C9: constructing a pattern with a bounded field one above its upper
bound (15 for brightness/start/end, 256 for cyclesPer10s) fails at
construction time with the `ValueError` naming that field, its limit and
the offending value; no instance is produced and nothing is clamped. -/
theorem light_pattern_overrange_rejected (ch : LightChannel) (s e : Int)
    (hs0 : 0 ≤ s) (hs : s ≤ 14) (he0 : 0 ≤ e) (he : e ≤ 14) :
    SteadyPattern.init ch 15 = .error (.rangeValueError "brightness" 14 15)
    ∧ AnimatedPattern.init ch 15 e 0 = .error (.rangeValueError "start" 14 15)
    ∧ AnimatedPattern.init ch s 15 0 = .error (.rangeValueError "end" 14 15)
    ∧ AnimatedPattern.init ch s e 256
        = .error (.rangeValueError "cycles_per_10s" 255 256) := by
  refine ⟨?_, ?_, ?_, ?_⟩
  · unfold SteadyPattern.init
    rw [rangedSet_reject _ _ _ (by unfold MAX_INTENSITY; omega)]
    rfl
  · unfold AnimatedPattern.init
    rw [rangedSet_reject _ _ _ (by unfold MAX_INTENSITY; omega)]
    rfl
  · unfold AnimatedPattern.init
    rw [rangedSet_ok _ _ _ hs0 (by unfold MAX_INTENSITY; omega),
        rangedSet_reject _ _ _ (by unfold MAX_INTENSITY; omega)]
    rfl
  · unfold AnimatedPattern.init
    rw [rangedSet_ok _ _ _ hs0 (by unfold MAX_INTENSITY; omega),
        rangedSet_ok _ _ _ he0 (by unfold MAX_INTENSITY; omega),
        rangedSet_reject _ _ _ (by unfold MAX_CYCLES_PER_10s; omega)]
    rfl

/-- C9 witness: the rejection theorem at channel FRONT_1 with in-range
start 0 and end 3. -/
theorem light_pattern_overrange_rejected_witness :
    SteadyPattern.init .FRONT_1 15 = .error (.rangeValueError "brightness" 14 15)
    ∧ AnimatedPattern.init .FRONT_1 15 3 0 = .error (.rangeValueError "start" 14 15)
    ∧ AnimatedPattern.init .FRONT_1 0 15 0 = .error (.rangeValueError "end" 14 15)
    ∧ AnimatedPattern.init .FRONT_1 0 3 256
        = .error (.rangeValueError "cycles_per_10s" 255 256) :=
  light_pattern_overrange_rejected .FRONT_1 0 3 (by decide) (by decide)
    (by decide) (by decide)

/-- Repeated registration appends one occurrence per call: after `n`
registrations of `f` the watcher list is the old list followed by `n`
copies of `f`. -/
theorem registerN_watchers (s : VehicleState) (f : Nat) (n : Nat) :
    (registerN s f n).track_piece_watchers
      = s.track_piece_watchers ++ List.replicate n f := by
  induction n with
  | zero => simp [registerN]
  | succ k ih =>
      simp [registerN, track_piece_change, ih, List.replicate_succ']

/-- Repeated registration does not touch the scheduled-callback queue. -/
theorem registerN_scheduled (s : VehicleState) (f : Nat) (n : Nat) :
    (registerN s f n).scheduled = s.scheduled := by
  induction n with
  | zero => rfl
  | succ k ih => simp [registerN, track_piece_change, ih]

/-- `list.remove` after appending one occurrence of `f` restores the
multiset: it deletes the first occurrence of `f` (not necessarily the
appended one), and every element count is back to the original. -/
theorem pyRemove_append_singleton (l : List Nat) (f : Nat) :
    ∃ m, pyRemove (l ++ [f]) f = .ok m ∧ ∀ g, m.count g = l.count g := by
  induction l with
  | nil =>
      refine ⟨[], ?_, fun g => rfl⟩
      simp [pyRemove]
  | cons a rest ih =>
      by_cases haf : a = f
      · refine ⟨rest ++ [f], ?_, fun g => ?_⟩
        · simp [pyRemove, haf]
        · subst haf
          simp [List.count_append, List.count_cons]
      · rcases ih with ⟨m, hm, hc⟩
        refine ⟨a :: m, ?_, fun g => ?_⟩
        · simp [pyRemove, haf, hm, Except.map]
        · simp [List.count_cons, hc g]

/-- C10: watcher registration has multiset semantics. First conjunct:
registering the same callback `n` times adds `n` occurrences to the
watcher list. Second: a `_call_all_soon` fan-out after those
registrations schedules the callback once per occurrence, i.e. `n` more
times than the prior list would. Third: one removal after one
registration deletes exactly one occurrence, restoring every element
count of the previous watcher list. -/
theorem watcher_multiset_semantics (s : VehicleState) (f : Nat) (n : Nat) :
    (registerN s f n).track_piece_watchers.count f
        = s.track_piece_watchers.count f + n
    ∧ (call_all_soon (registerN s f n)
        (registerN s f n).track_piece_watchers).scheduled.count f
        = s.scheduled.count f + (s.track_piece_watchers.count f + n)
    ∧ (∃ s2, remove_track_piece_watcher (track_piece_change s f).1 f = .ok s2
          ∧ ∀ g, s2.track_piece_watchers.count g
              = s.track_piece_watchers.count g) := by
  have hw := registerN_watchers s f n
  refine ⟨?_, ?_, ?_⟩
  · rw [hw]
    simp [List.count_append]
  · simp [call_all_soon, registerN_scheduled, hw, List.count_append]
  · rcases pyRemove_append_singleton s.track_piece_watchers f with ⟨m, hm, hc⟩
    refine ⟨{ (track_piece_change s f).1 with track_piece_watchers := m }, ?_, fun g => hc g⟩
    simp [remove_track_piece_watcher, track_piece_change, hm, Except.map]
